import Mathlib

/-!
Shallow embedding of the search-query compiler/executor (Go package `search`).

Each Lean definition mirrors one Go declaration of the source file.  External
collaborators (the free-text normalizer `ParseQuery`, the clock
`DatetimeNow`, JSON marshalling, the backend HTTP client and the JSON
decoder) are modelled as parameters bundled in an environment record, since
the compiler only depends on their input/output contracts.  Go `int` is
modelled as `Int` together with explicit 64-bit two's-complement wraparound
where the source performs arithmetic (`checkParams`).  `float64` fields
(`_score`, `max_score`, the fixed boost literal `0.5`) are modelled as `Rat`:
the source never performs floating-point arithmetic on them, it only stores
literals and decoded values, so the rational model is exact for every
property considered here.
-/

namespace Search

/-- Model of atproto datetime strings (`Datetime`); an opaque string. -/
structure Datetime where
  val : String
deriving DecidableEq, Repr

/-- Go `PostSearchQuery`.  `From`/`To` are `*time.Time` in the source and are
modelled as optional datetimes (the source formats them with the atproto
layout before use; the formatting map is the identity of this model). -/
structure PostSearchQuery where
  query : String
  offset : Int
  size : Int
  from_ : Option Datetime
  to_ : Option Datetime
  actors : List String
  tags : List String
  langs : List String
deriving DecidableEq, Repr

/-- Go `ActorSearchQuery`. -/
structure ActorSearchQuery where
  query : String
  following : List String
  offset : Int
  size : Int
  typeahead : Bool
deriving DecidableEq, Repr

/-- The value object built for the `created_at` range clause: the source
starts from `{"lte": now}` and conditionally inserts `"gte"` / overwrites
`"lte"`, so both keys are optional in the type. -/
structure DatetimeRange where
  gte : Option Datetime := none
  lte : Option Datetime := none
deriving DecidableEq, Repr

/-- A filter clause in the backend boolean query's `filter` context.
`terms field values` models `{"terms": {field: values}}`; `range field r`
models `{"range": {field: r}}`; `extracted tag` stands for a clause of
unspecified shape produced by the external free-text normalizer
(`ParseQuery`), which this package treats as a black box. -/
inductive Filter where
  | terms (field : String) (values : List String)
  | range (field : String) (r : DatetimeRange)
  | extracted (tag : String)
deriving DecidableEq, Repr

/-- The `simple_query_string` scoring clause literal. -/
structure SimpleQueryString where
  query : String
  fields : List String
  flags : String
  default_operator : String
  lenient : Bool
  analyze_wildcard : Bool
deriving DecidableEq, Repr

/-- The `multi_match` scoring clause literal (typeahead shapes). -/
structure MultiMatchQuery where
  query : String
  type : String
  operator : String
  fields : List String
deriving DecidableEq, Repr

/-- The `query_string` clause literal (unrestricted passthrough shape). -/
structure QueryStringQuery where
  query : String
  default_operator : String
  analyze_wildcard : Bool
  allow_leading_wildcard : Bool
  lenient : Bool
  default_field : String
deriving DecidableEq, Repr

/-- The clauses the source ever places under a bool query's `must` key. -/
inductive MustClause where
  | simpleQS (s : SimpleQueryString)
  | multiMatch (m : MultiMatchQuery)
deriving DecidableEq, Repr

/-- The clauses the source ever places under `should`:
`{"term": {field: value}}`. -/
inductive ShouldClause where
  | term (field : String) (value : Bool)
deriving DecidableEq, Repr

/-- A compiled `bool` query.  Keys the source omits in a given shape are
`none` / `[]` here. -/
structure BoolQuery where
  must : MustClause
  should : Option (List ShouldClause) := none
  minimum_should_match : Option Int := none
  filter : List Filter := []
  boost : Option Rat := none
deriving DecidableEq, Repr

/-- The three top-level `query` values the source constructs. -/
inductive TopQuery where
  | boolq (b : BoolQuery)
  | multiMatch (m : MultiMatchQuery)
  | queryString (s : QueryStringQuery)
deriving DecidableEq, Repr

/-- A single-key sort specification `{field: {"order": order}}`. -/
structure SortSpec where
  field : String
  order : String
deriving DecidableEq, Repr

/-- A compiled query document: top-level keys `query`, `sort`, `size`,
`from`.  Shapes that omit a key leave it `none`. -/
structure EsQueryDoc where
  query : TopQuery
  sort : Option SortSpec := none
  size : Option Int := none
  from_ : Option Int := none
deriving DecidableEq, Repr

/-- Go `EsSearchHit` (`_source` is an opaque raw payload). -/
structure EsSearchHit where
  index : String
  id : String
  score : Rat
  source : String
deriving DecidableEq, Repr

/-- Go `EsSearchHits`. -/
structure EsSearchHits where
  maxScore : Rat
  hits : List EsSearchHit
deriving DecidableEq, Repr

/-- Go `EsSearchResponse`, the result envelope. -/
structure EsSearchResponse where
  took : Int
  timedOut : Bool
  hits : EsSearchHits
deriving DecidableEq, Repr

/-- The errors the package constructs, one constructor per `fmt.Errorf`
site: pagination rejection in `checkParams`, serialization failure,
transport failure (wrapping the cause), backend rejection (carrying the
status code), and response-decoding failure. -/
inductive SearchError where
  | invalidParams (msg : String)
  | serializeQuery (msg : String)
  | searchTransport (cause : String)
  | searchBackend (statusCode : Int)
  | decodeResponse (msg : String)
deriving DecidableEq, Repr

/-- Go 64-bit `int` addition with two's-complement wraparound
(`-2^63 = -9223372036854775808`, `2^64 = 18446744073709551616`). -/
def goAdd (a b : Int) : Int :=
  (a + b + 9223372036854775808) % 18446744073709551616 - 9223372036854775808

/-- Go `checkParams`: rejects when
`offset+size > 10000 || size > 250 || offset > 10000 || offset < 0 || size < 0`.
Returns `none` for the Go `nil` error. -/
def checkParams (offset size : Int) : Option SearchError :=
  if goAdd offset size > 10000 ∨ size > 250 ∨ offset > 10000 ∨
      offset < 0 ∨ size < 0 then
    some (.invalidParams "disallowed size/offset parameters")
  else
    none

/-- The acceptance region claimed by the specification. -/
def paginationOK (offset size : Int) : Prop :=
  0 ≤ offset ∧ offset ≤ 10000 ∧ 0 ≤ size ∧ size ≤ 250 ∧ offset + size ≤ 10000

instance (offset size : Int) : Decidable (paginationOK offset size) := by
  unfold paginationOK
  exact inferInstance

/-- The behaviour of one backend HTTP round trip (`escli.Search`): either a
transport-level failure or an HTTP response with a status code and body. -/
inductive BackendBehavior where
  | transportFailure (cause : String)
  | httpResponse (statusCode : Int) (body : String)
deriving DecidableEq, Repr

/-- The backend client's `Response.IsError`: `StatusCode > 299`. -/
def respIsError (statusCode : Int) : Bool := statusCode > 299

/-- The external collaborators of the package, bundled: the free-text
normalizer `ParseQuery` (returns a normalized query string and extracted
filter clauses), the clock `DatetimeNow`, JSON marshalling of the compiled
document, the backend search call (index and marshalled body to outcome),
and JSON decoding of a response body into the result envelope. -/
structure Env where
  parseQuery : String → String × List Filter
  now : Datetime
  marshal : EsQueryDoc → Except String String
  backend : String → String → BackendBehavior
  decode : String → Except String EsSearchResponse

/-- Go `doSearch`: marshal the compiled document, submit it, map a
transport failure, a non-OK status (`IsError`) and a decode failure to the
corresponding errors, and return the decoded envelope on success.  The Go
return shape `(*EsSearchResponse, error)` is modelled literally as a pair
of options, one per return site. -/
def doSearch (env : Env) (index : String) (query : EsQueryDoc) :
    Option EsSearchResponse × Option SearchError :=
  match env.marshal query with
  | .error msg => (none, some (.serializeQuery msg))
  | .ok b =>
    match env.backend index b with
    | .transportFailure cause => (none, some (.searchTransport cause))
    | .httpResponse status body =>
      if respIsError status then
        (none, some (.searchBackend status))
      else
        match env.decode body with
        | .error msg => (none, some (.decodeResponse msg))
        | .ok out => (some out, none)

/-- The `simple_query_string` literal shared verbatim by the post and
profile shapes (the source repeats this map literal in each of them). -/
def basicQuery (queryStr : String) : SimpleQueryString :=
  { query := queryStr
    fields := ["everything"]
    flags := "AND|NOT|OR|PHRASE|PRECEDENCE|WHITESPACE"
    default_operator := "and"
    lenient := true
    analyze_wildcard := false }

/-- The query document built by `DoStructuredSearchPosts` after the guard
passes: normalizer output first, then the `created_at` range (starting from
`{"lte": now}`, adding `gte` for `From`, overwriting `lte` for `To`), then
the conditional actor/tag/lang terms filters, sorted by `created_at`
descending. -/
def DoStructuredSearchPostsQuery (env : Env) (q : PostSearchQuery) :
    EsQueryDoc :=
  let parsed := env.parseQuery q.query
  let basic := basicQuery parsed.1
  let createdAtRange : DatetimeRange := { lte := some env.now }
  let createdAtRange :=
    match q.from_ with
    | some f => { createdAtRange with gte := some f }
    | none => createdAtRange
  let createdAtRange :=
    match q.to_ with
    | some t => { createdAtRange with lte := some t }
    | none => createdAtRange
  let timeRangeFilter := Filter.range "created_at" createdAtRange
  let filters := parsed.2 ++ [timeRangeFilter]
  let filters :=
    if q.actors.length > 0 then filters ++ [Filter.terms "did" q.actors]
    else filters
  let filters :=
    if q.tags.length > 0 then filters ++ [Filter.terms "tag" q.tags]
    else filters
  let filters :=
    if q.langs.length > 0 then filters ++ [Filter.terms "lang" q.langs]
    else filters
  { query := .boolq { must := .simpleQS basic, filter := filters }
    sort := some { field := "created_at", order := "desc" }
    size := some q.size
    from_ := some q.offset }

/-- Go `DoStructuredSearchPosts`: guard, then compile, then execute. -/
def DoStructuredSearchPosts (env : Env) (index : String)
    (q : PostSearchQuery) : Option EsSearchResponse × Option SearchError :=
  match checkParams q.offset q.size with
  | some err => (none, some err)
  | none => doSearch env index (DoStructuredSearchPostsQuery env q)

/-- The query document built by `DoSearchPosts` after the guard passes:
normalizer output plus the future-post filter `{"lte": now}`, sorted by
`created_at` descending. -/
def DoSearchPostsQuery (env : Env) (q : String) (offset size : Int) :
    EsQueryDoc :=
  let parsed := env.parseQuery q
  let basic := basicQuery parsed.1
  let filters := parsed.2 ++
    [Filter.range "created_at" { lte := some env.now }]
  { query := .boolq { must := .simpleQS basic, filter := filters }
    sort := some { field := "created_at", order := "desc" }
    size := some size
    from_ := some offset }

/-- Go `DoSearchPosts`. -/
def DoSearchPosts (env : Env) (index q : String) (offset size : Int) :
    Option EsSearchResponse × Option SearchError :=
  match checkParams offset size with
  | some err => (none, some err)
  | none => doSearch env index (DoSearchPostsQuery env q offset size)

/-- The query document built by `DoSearchProfiles` after the guard passes:
relevance bool query with the avatar/banner `should` boosts,
`minimum_should_match` 0, boost 0.5, sorted by `pagerank` descending. -/
def DoSearchProfilesQuery (env : Env) (q : String) (offset size : Int) :
    EsQueryDoc :=
  let parsed := env.parseQuery q
  let basic := basicQuery parsed.1
  { query := .boolq
      { must := .simpleQS basic
        should := some [.term "has_avatar" true, .term "has_banner" true]
        minimum_should_match := some 0
        filter := parsed.2
        boost := some (1 / 2) }
    sort := some { field := "pagerank", order := "desc" }
    size := some size
    from_ := some offset }

/-- Go `DoSearchProfiles`. -/
def DoSearchProfiles (env : Env) (index q : String) (offset size : Int) :
    Option EsSearchResponse × Option SearchError :=
  match checkParams offset size with
  | some err => (none, some err)
  | none => doSearch env index (DoSearchProfilesQuery env q offset size)

/-- The query document built by `DoStructuredSearchProfiles` after the
guard passes: like `DoSearchProfilesQuery` plus a `following` terms filter
when the set is non-empty. -/
def DoStructuredSearchProfilesQuery (env : Env) (q : ActorSearchQuery) :
    EsQueryDoc :=
  let parsed := env.parseQuery q.query
  let basic := basicQuery parsed.1
  let filters :=
    if q.following.length > 0 then
      parsed.2 ++ [Filter.terms "did" q.following]
    else parsed.2
  { query := .boolq
      { must := .simpleQS basic
        should := some [.term "has_avatar" true, .term "has_banner" true]
        minimum_should_match := some 0
        filter := filters
        boost := some (1 / 2) }
    sort := some { field := "pagerank", order := "desc" }
    size := some q.size
    from_ := some q.offset }

/-- Go `DoStructuredSearchProfiles`. -/
def DoStructuredSearchProfiles (env : Env) (index : String)
    (q : ActorSearchQuery) : Option EsSearchResponse × Option SearchError :=
  match checkParams q.offset q.size with
  | some err => (none, some err)
  | none => doSearch env index (DoStructuredSearchProfilesQuery env q)

/-- The query document built by `DoSearchProfilesTypeahead` after the guard
passes: a bare top-level `multi_match` bool-prefix clause (no bool wrapper,
no filters, no `from` key), sorted by `pagerank` descending. -/
def DoSearchProfilesTypeaheadQuery (q : String) (size : Int) : EsQueryDoc :=
  { query := .multiMatch
      { query := q
        type := "bool_prefix"
        operator := "and"
        fields := ["typeahead", "typeahead._2gram", "typeahead._3gram"] }
    sort := some { field := "pagerank", order := "desc" }
    size := some size }

/-- Go `DoSearchProfilesTypeahead`: the guard is called with offset 0. -/
def DoSearchProfilesTypeahead (env : Env) (index q : String) (size : Int) :
    Option EsSearchResponse × Option SearchError :=
  match checkParams 0 size with
  | some err => (none, some err)
  | none => doSearch env index (DoSearchProfilesTypeaheadQuery q size)

/-- The query document built by `DoStructuredSearchProfilesTypeahead` after
the guard passes: the bool-prefix `multi_match` as the sole `must` of a
bool query, plus a `following` terms filter when the set is non-empty. -/
def DoStructuredSearchProfilesTypeaheadQuery (q : ActorSearchQuery) :
    EsQueryDoc :=
  let filters : List Filter :=
    if q.following.length > 0 then [Filter.terms "did" q.following] else []
  { query := .boolq
      { must := .multiMatch
          { query := q.query
            type := "bool_prefix"
            operator := "and"
            fields := ["typeahead", "typeahead._2gram", "typeahead._3gram"] }
        filter := filters }
    sort := some { field := "pagerank", order := "desc" }
    size := some q.size
    from_ := some q.offset }

/-- Go `DoStructuredSearchProfilesTypeahead`. -/
def DoStructuredSearchProfilesTypeahead (env : Env) (index : String)
    (q : ActorSearchQuery) : Option EsSearchResponse × Option SearchError :=
  match checkParams q.offset q.size with
  | some err => (none, some err)
  | none => doSearch env index (DoStructuredSearchProfilesTypeaheadQuery q)

/-- The query document built by `DoSearchGeneric`: a bare `query_string`
clause; no sort, size or from keys. -/
def DoSearchGenericQuery (q : String) : EsQueryDoc :=
  { query := .queryString
      { query := q
        default_operator := "and"
        analyze_wildcard := true
        allow_leading_wildcard := false
        lenient := true
        default_field := "everything" } }

/-- Go `DoSearchGeneric`: no pagination parameters and no guard; the
compiled document is submitted unconditionally. -/
def DoSearchGeneric (env : Env) (index q : String) :
    Option EsSearchResponse × Option SearchError :=
  doSearch env index (DoSearchGenericQuery q)

/-- The `must` entry of a compiled top-level query, when it is a bool
query. -/
def TopQuery.mustOf : TopQuery → Option MustClause
  | .boolq b => some b.must
  | _ => none

/-- The `filter` clauses of a compiled top-level query (non-bool queries
carry none). -/
def TopQuery.filtersOf : TopQuery → List Filter
  | .boolq b => b.filter
  | _ => []

/-- The `should` entry of a compiled top-level query. -/
def TopQuery.shouldOf : TopQuery → Option (List ShouldClause)
  | .boolq b => b.should
  | _ => none

/-- The `boost` entry of a compiled top-level query. -/
def TopQuery.boostOf : TopQuery → Option Rat
  | .boolq b => b.boost
  | _ => none

/-- The `minimum_should_match` entry of a compiled top-level query. -/
def TopQuery.minShouldMatchOf : TopQuery → Option Int
  | .boolq b => b.minimum_should_match
  | _ => none

/-- Whether a filter is a terms filter on the given field. -/
def Filter.isTermsOn (field : String) : Filter → Bool
  | .terms f _ => f = field
  | _ => false

/-- An empty result envelope, used as a concrete decoded response in
witnesses. -/
def respEmpty : EsSearchResponse :=
  { took := 1, timedOut := false, hits := { maxScore := 0, hits := [] } }

/-- A concrete environment whose backend answers 200 with a decodable
body. -/
def envOk : Env :=
  { parseQuery := fun s => (s, [])
    now := ⟨"2024-06-01T00:00:00.000Z"⟩
    marshal := fun _ => .ok "\x7b\x7d"
    backend := fun _ _ => .httpResponse 200 "body"
    decode := fun _ => .ok respEmpty }

/-- A concrete environment whose backend refuses the connection. -/
def envRefused : Env :=
  { envOk with backend := fun _ _ => .transportFailure "connection refused" }

/-- A concrete environment whose backend rejects the query with HTTP 500. -/
def envRejects : Env :=
  { envOk with backend := fun _ _ => .httpResponse 500 "oops" }

/-- A concrete environment whose backend answers 200 with a body that does
not decode (truncated JSON). -/
def envBadBody : Env :=
  { envOk with decode := fun _ => .error "unexpected EOF" }

/-- A concrete structured post query used in witnesses: a single actor,
no tags, no languages, pagination in bounds. -/
def postQueryActor : PostSearchQuery :=
  { query := "hello"
    offset := 0
    size := 10
    from_ := none
    to_ := none
    actors := ["did:plc:abc"]
    tags := []
    langs := [] }

/-- A concrete structured actor query with out-of-bounds pagination. -/
def actorQueryBad : ActorSearchQuery :=
  { query := "ali", following := [], offset := -1, size := 0,
    typeahead := false }

/-- A concrete structured post query with out-of-bounds pagination. -/
def postQueryBad : PostSearchQuery :=
  { postQueryActor with offset := -1, size := 0 }

lemma goAdd_eq_of_bounds (a b : Int) (h1 : -9223372036854775808 ≤ a + b)
    (h2 : a + b ≤ 9223372036854775807) : goAdd a b = a + b := by
  unfold goAdd
  omega

lemma checkParams_eq_none_iff (offset size : Int) :
    checkParams offset size = none ↔ paginationOK offset size := by
  unfold checkParams paginationOK
  by_cases hcond : goAdd offset size > 10000 ∨ size > 250 ∨ offset > 10000 ∨
      offset < 0 ∨ size < 0
  · simp only [hcond, if_true]
    constructor
    · intro h
      exact absurd h (by simp)
    · rintro ⟨ho1, ho2, hs1, hs2, hsum⟩
      have hg : goAdd offset size = offset + size :=
        goAdd_eq_of_bounds offset size (by omega) (by omega)
      rcases hcond with h | h | h | h | h <;> omega
  · simp only [hcond, if_false]
    push_neg at hcond
    obtain ⟨h1, h2, h3, h4, h5⟩ := hcond
    have hg : goAdd offset size = offset + size :=
      goAdd_eq_of_bounds offset size (by omega) (by omega)
    simp only [true_iff]
    refine ⟨by omega, by omega, by omega, by omega, by omega⟩

lemma checkParams_eq_some_iff (offset size : Int) :
    checkParams offset size =
      some (.invalidParams "disallowed size/offset parameters") ↔
    ¬ paginationOK offset size := by
  rw [← checkParams_eq_none_iff]
  unfold checkParams
  by_cases hcond : goAdd offset size > 10000 ∨ size > 250 ∨ offset > 10000 ∨
      offset < 0 ∨ size < 0 <;> simp [hcond]

lemma checkParams_of_not_ok {offset size : Int}
    (h : ¬ paginationOK offset size) :
    checkParams offset size =
      some (.invalidParams "disallowed size/offset parameters") :=
  (checkParams_eq_some_iff offset size).mpr h

/-- C1: the pagination guard accepts `(offset, size)` iff
`0 ≤ offset ≤ 10000`, `0 ≤ size ≤ 250` and `offset + size ≤ 10000`; in
particular `(10000,0)` and `(0,250)` are accepted while `(9999,2)`,
`(0,251)` and `(-1,0)` are rejected with the invalid-parameters error. -/
theorem c1_pagination_guard_iff :
    (∀ offset size : Int,
      (checkParams offset size = none ↔ paginationOK offset size) ∧
      (checkParams offset size =
          some (.invalidParams "disallowed size/offset parameters") ↔
        ¬ paginationOK offset size)) ∧
    checkParams 10000 0 = none ∧
    checkParams 0 250 = none ∧
    checkParams 9999 2 =
      some (.invalidParams "disallowed size/offset parameters") ∧
    checkParams 0 251 =
      some (.invalidParams "disallowed size/offset parameters") ∧
    checkParams (-1) 0 =
      some (.invalidParams "disallowed size/offset parameters") := by
  refine ⟨fun offset size =>
    ⟨checkParams_eq_none_iff offset size, checkParams_eq_some_iff offset size⟩,
    ?_, ?_, ?_, ?_, ?_⟩ <;> decide

/-- C2 (amended): for the six operations that take pagination parameters
(structured and plain post search, plain and structured profile search,
plain typeahead — whose guard is invoked with offset 0 — and structured
typeahead), an out-of-bounds (offset, size) makes the operation return the
invalid-parameters error for every environment, hence before the
normalizer, the marshaller or the backend can be consulted.  The
unrestricted passthrough operation is excluded: it takes no pagination
parameters and performs no check (see the counterexample). -/
theorem c2_guard_first_for_paginated_shapes :
    (∀ (env : Env) (index : String) (q : PostSearchQuery),
      ¬ paginationOK q.offset q.size →
      DoStructuredSearchPosts env index q =
        (none, some (.invalidParams "disallowed size/offset parameters"))) ∧
    (∀ (env : Env) (index q : String) (offset size : Int),
      ¬ paginationOK offset size →
      DoSearchPosts env index q offset size =
        (none, some (.invalidParams "disallowed size/offset parameters"))) ∧
    (∀ (env : Env) (index q : String) (offset size : Int),
      ¬ paginationOK offset size →
      DoSearchProfiles env index q offset size =
        (none, some (.invalidParams "disallowed size/offset parameters"))) ∧
    (∀ (env : Env) (index : String) (q : ActorSearchQuery),
      ¬ paginationOK q.offset q.size →
      DoStructuredSearchProfiles env index q =
        (none, some (.invalidParams "disallowed size/offset parameters"))) ∧
    (∀ (env : Env) (index q : String) (size : Int),
      ¬ paginationOK 0 size →
      DoSearchProfilesTypeahead env index q size =
        (none, some (.invalidParams "disallowed size/offset parameters"))) ∧
    (∀ (env : Env) (index : String) (q : ActorSearchQuery),
      ¬ paginationOK q.offset q.size →
      DoStructuredSearchProfilesTypeahead env index q =
        (none, some (.invalidParams "disallowed size/offset parameters"))) := by
  refine ⟨?_, ?_, ?_, ?_, ?_, ?_⟩
  · intro env index q h
    simp [DoStructuredSearchPosts, checkParams_of_not_ok h]
  · intro env index q offset size h
    simp [DoSearchPosts, checkParams_of_not_ok h]
  · intro env index q offset size h
    simp [DoSearchProfiles, checkParams_of_not_ok h]
  · intro env index q h
    simp [DoStructuredSearchProfiles, checkParams_of_not_ok h]
  · intro env index q size h
    simp [DoSearchProfilesTypeahead, checkParams_of_not_ok h]
  · intro env index q h
    simp [DoStructuredSearchProfilesTypeahead, checkParams_of_not_ok h]

/-- Witness for C2 (amended): each guarded operation, invoked with
out-of-bounds pagination in a concrete environment, returns the
invalid-parameters error. -/
theorem c2_guard_first_witness :
    DoStructuredSearchPosts envOk "idx" postQueryBad =
      (none, some (.invalidParams "disallowed size/offset parameters")) ∧
    DoSearchPosts envOk "idx" "q" (-1) 0 =
      (none, some (.invalidParams "disallowed size/offset parameters")) ∧
    DoSearchProfiles envOk "idx" "q" (-1) 0 =
      (none, some (.invalidParams "disallowed size/offset parameters")) ∧
    DoStructuredSearchProfiles envOk "idx" actorQueryBad =
      (none, some (.invalidParams "disallowed size/offset parameters")) ∧
    DoSearchProfilesTypeahead envOk "idx" "q" 251 =
      (none, some (.invalidParams "disallowed size/offset parameters")) ∧
    DoStructuredSearchProfilesTypeahead envOk "idx" actorQueryBad =
      (none, some (.invalidParams "disallowed size/offset parameters")) :=
  ⟨c2_guard_first_for_paginated_shapes.1 envOk "idx" postQueryBad (by decide),
   c2_guard_first_for_paginated_shapes.2.1 envOk "idx" "q" (-1) 0 (by decide),
   c2_guard_first_for_paginated_shapes.2.2.1 envOk "idx" "q" (-1) 0
     (by decide),
   c2_guard_first_for_paginated_shapes.2.2.2.1 envOk "idx" actorQueryBad
     (by decide),
   c2_guard_first_for_paginated_shapes.2.2.2.2.1 envOk "idx" "q" 251
     (by decide),
   c2_guard_first_for_paginated_shapes.2.2.2.2.2 envOk "idx" actorQueryBad
     (by decide)⟩

/-- Counterexample for C2 as stated: the unrestricted passthrough shape
(`DoSearchGeneric`) never runs the pagination guard.  It has no
offset/size parameters at all, never returns the invalid-parameters
error, and submits a request to the backend unconditionally: its result
tracks the backend's behaviour (transport failure maps to a transport
error; a 200 response is decoded and returned), so a backend call is made
on every invocation, contradicting "the pagination guard runs first and
unconditionally ... for all five shapes, including ... the unrestricted
passthrough shape". -/
theorem c2_counterexample_passthrough_no_guard :
    DoSearchGeneric envRefused "idx" "anything" =
      (none, some (.searchTransport "connection refused")) ∧
    DoSearchGeneric envOk "idx" "anything" = (some respEmpty, none) :=
  ⟨rfl, rfl⟩

/-- C3 (amended): the five shapes that compile a boolean query (structured
and plain posts, plain and structured profiles, structured typeahead)
place their scoring clause as the sole `must` entry and their filter
clauses only in the `filter` context, and a `should` list appears exactly
in the two profile-relevance shapes (with the avatar and banner clauses).
The plain typeahead and the unrestricted passthrough shapes instead emit
the scoring clause as the bare top-level query, with no bool wrapper, no
`must` entry and no filters. -/
theorem c3_bool_query_contexts :
    (∀ (env : Env) (q : PostSearchQuery),
      (DoStructuredSearchPostsQuery env q).query.mustOf =
        some (.simpleQS (basicQuery (env.parseQuery q.query).1)) ∧
      (DoStructuredSearchPostsQuery env q).query.shouldOf = none) ∧
    (∀ (env : Env) (q : String) (offset size : Int),
      (DoSearchPostsQuery env q offset size).query.mustOf =
        some (.simpleQS (basicQuery (env.parseQuery q).1)) ∧
      (DoSearchPostsQuery env q offset size).query.shouldOf = none) ∧
    (∀ (env : Env) (q : String) (offset size : Int),
      (DoSearchProfilesQuery env q offset size).query.mustOf =
        some (.simpleQS (basicQuery (env.parseQuery q).1)) ∧
      (DoSearchProfilesQuery env q offset size).query.shouldOf =
        some [.term "has_avatar" true, .term "has_banner" true]) ∧
    (∀ (env : Env) (q : ActorSearchQuery),
      (DoStructuredSearchProfilesQuery env q).query.mustOf =
        some (.simpleQS (basicQuery (env.parseQuery q.query).1)) ∧
      (DoStructuredSearchProfilesQuery env q).query.shouldOf =
        some [.term "has_avatar" true, .term "has_banner" true]) ∧
    (∀ q : ActorSearchQuery,
      (DoStructuredSearchProfilesTypeaheadQuery q).query.mustOf =
        some (.multiMatch
          { query := q.query, type := "bool_prefix", operator := "and",
            fields :=
              ["typeahead", "typeahead._2gram", "typeahead._3gram"] }) ∧
      (DoStructuredSearchProfilesTypeaheadQuery q).query.shouldOf = none) ∧
    (∀ (q : String) (size : Int),
      (DoSearchProfilesTypeaheadQuery q size).query =
        .multiMatch
          { query := q, type := "bool_prefix", operator := "and",
            fields :=
              ["typeahead", "typeahead._2gram", "typeahead._3gram"] } ∧
      (DoSearchProfilesTypeaheadQuery q size).query.filtersOf = []) ∧
    (∀ q : String,
      (DoSearchGenericQuery q).query =
        .queryString
          { query := q, default_operator := "and",
            analyze_wildcard := true, allow_leading_wildcard := false,
            lenient := true, default_field := "everything" } ∧
      (DoSearchGenericQuery q).query.filtersOf = []) :=
  ⟨fun _ _ => ⟨rfl, rfl⟩, fun _ _ _ _ => ⟨rfl, rfl⟩,
   fun _ _ _ _ => ⟨rfl, rfl⟩, fun _ _ => ⟨rfl, rfl⟩,
   fun _ => ⟨rfl, rfl⟩, fun _ _ => ⟨rfl, rfl⟩, fun _ => ⟨rfl, rfl⟩⟩

/-- Counterexample for C3 as stated: the plain typeahead shape compiles a
document whose top-level query is a bare `multi_match`, not a boolean
query — it has no `must` entry at all, so "the scoring clause is always
the sole must entry of the document" fails on this shape (one of the five
the claim quantifies over). -/
theorem c3_counterexample_plain_typeahead_no_must :
    (DoSearchProfilesTypeaheadQuery "ali" 10).query.mustOf = none ∧
    (DoSearchProfilesTypeaheadQuery "ali" 10).query =
      .multiMatch
        { query := "ali", type := "bool_prefix", operator := "and",
          fields := ["typeahead", "typeahead._2gram", "typeahead._3gram"] } :=
  ⟨rfl, rfl⟩

lemma structuredPosts_filters (env : Env) (q : PostSearchQuery) :
    (DoStructuredSearchPostsQuery env q).query.filtersOf =
      (env.parseQuery q.query).2 ++
        Filter.range "created_at"
          { gte := q.from_, lte := some (q.to_.getD env.now) } ::
        ((if q.actors.length > 0 then [Filter.terms "did" q.actors]
          else []) ++
         (if q.tags.length > 0 then [Filter.terms "tag" q.tags] else []) ++
         (if q.langs.length > 0 then [Filter.terms "lang" q.langs]
          else [])) := by
  unfold DoStructuredSearchPostsQuery TopQuery.filtersOf
  cases hf : q.from_ <;> cases ht : q.to_ <;>
    split_ifs <;> simp_all [List.append_assoc]

/-- C4: in every structured post search compilation the `created_at` range
filter carries an upper bound — the caller's `to` when supplied and the
compile-time "now" otherwise — and a lower bound exactly when the caller
supplies `from`, equal to that `from`; the plain post search variant
always compiles the range `{lte: now}` with no lower bound. -/
theorem c4_created_at_range_bounds :
    (∀ (env : Env) (q : PostSearchQuery), ∃ suffix : List Filter,
      (DoStructuredSearchPostsQuery env q).query.filtersOf =
        (env.parseQuery q.query).2 ++
          Filter.range "created_at"
            { gte := q.from_,
              lte := some (match q.to_ with | some t => t | none => env.now) }
            :: suffix) ∧
    (∀ (env : Env) (q : String) (offset size : Int),
      (DoSearchPostsQuery env q offset size).query.filtersOf =
        (env.parseQuery q).2 ++
          [Filter.range "created_at" { gte := none, lte := some env.now }]) := by
  constructor
  · intro env q
    refine ⟨(if q.actors.length > 0 then [Filter.terms "did" q.actors]
        else []) ++
      (if q.tags.length > 0 then [Filter.terms "tag" q.tags] else []) ++
      (if q.langs.length > 0 then [Filter.terms "lang" q.langs] else []),
      ?_⟩
    have h := structuredPosts_filters env q
    cases ht : q.to_ <;> simp_all [Option.getD]
  · intro env q offset size
    rfl

/-- C5: the structured post search compiles its filter list in the fixed
order normalizer-extracted filters, mandatory `created_at` range,
then terms filters for actors, tags and languages exactly when the
corresponding set is non-empty; the document sorts by the single key
`created_at` descending and has no `should` clause.  In particular with
`actors=["did:plc:abc"]`, `tags=[]`, `langs=[]` (and a normalizer that
extracts no filters) the compiled filters contain exactly one actor terms
clause and no tag or language clauses. -/
theorem c5_structured_posts_filter_order :
    (∀ (env : Env) (q : PostSearchQuery),
      (DoStructuredSearchPostsQuery env q).query.filtersOf =
        (env.parseQuery q.query).2 ++
          Filter.range "created_at"
            { gte := q.from_, lte := some (q.to_.getD env.now) } ::
          ((if q.actors.length > 0 then [Filter.terms "did" q.actors]
            else []) ++
           (if q.tags.length > 0 then [Filter.terms "tag" q.tags]
            else []) ++
           (if q.langs.length > 0 then [Filter.terms "lang" q.langs]
            else [])) ∧
      (DoStructuredSearchPostsQuery env q).sort =
        some { field := "created_at", order := "desc" } ∧
      (DoStructuredSearchPostsQuery env q).query.shouldOf = none) ∧
    (DoStructuredSearchPostsQuery envOk postQueryActor).query.filtersOf.countP
        (Filter.isTermsOn "did") = 1 ∧
    (DoStructuredSearchPostsQuery envOk postQueryActor).query.filtersOf.countP
        (Filter.isTermsOn "tag") = 0 ∧
    (DoStructuredSearchPostsQuery envOk postQueryActor).query.filtersOf.countP
        (Filter.isTermsOn "lang") = 0 := by
  refine ⟨fun env q => ⟨structuredPosts_filters env q, rfl, rfl⟩, ?_, ?_, ?_⟩
    <;> decide

/-- C6: both profile relevance shapes compile a bool query with boost 0.5,
a `should` list of exactly the avatar and banner clauses,
`minimum_should_match` 0, and a single sort key `pagerank` descending —
for every free-text input and every facet input. -/
theorem c6_profile_relevance_scoring :
    (∀ (env : Env) (q : String) (offset size : Int),
      (DoSearchProfilesQuery env q offset size).query.boostOf =
        some (1 / 2) ∧
      (DoSearchProfilesQuery env q offset size).query.shouldOf =
        some [.term "has_avatar" true, .term "has_banner" true] ∧
      (DoSearchProfilesQuery env q offset size).query.minShouldMatchOf =
        some 0 ∧
      (DoSearchProfilesQuery env q offset size).sort =
        some { field := "pagerank", order := "desc" }) ∧
    (∀ (env : Env) (q : ActorSearchQuery),
      (DoStructuredSearchProfilesQuery env q).query.boostOf =
        some (1 / 2) ∧
      (DoStructuredSearchProfilesQuery env q).query.shouldOf =
        some [.term "has_avatar" true, .term "has_banner" true] ∧
      (DoStructuredSearchProfilesQuery env q).query.minShouldMatchOf =
        some 0 ∧
      (DoStructuredSearchProfilesQuery env q).sort =
        some { field := "pagerank", order := "desc" }) :=
  ⟨fun _ _ _ _ => ⟨rfl, rfl, rfl, rfl⟩, fun _ _ => ⟨rfl, rfl, rfl, rfl⟩⟩

/-- C7: both typeahead shapes score with a `bool_prefix` multi-match whose
operator is AND over exactly the three field variants `typeahead`,
`typeahead._2gram` and `typeahead._3gram`; in the structured variant a
non-empty `following` set contributes exactly one terms filter over that
set and an empty set contributes none. -/
theorem c7_typeahead_scoring_clause :
    (∀ (q : String) (size : Int),
      (DoSearchProfilesTypeaheadQuery q size).query =
        .multiMatch
          { query := q, type := "bool_prefix", operator := "and",
            fields :=
              ["typeahead", "typeahead._2gram", "typeahead._3gram"] }) ∧
    (∀ q : ActorSearchQuery,
      (DoStructuredSearchProfilesTypeaheadQuery q).query.mustOf =
        some (.multiMatch
          { query := q.query, type := "bool_prefix", operator := "and",
            fields :=
              ["typeahead", "typeahead._2gram", "typeahead._3gram"] }) ∧
      (DoStructuredSearchProfilesTypeaheadQuery q).query.filtersOf =
        (if q.following = [] then []
         else [Filter.terms "did" q.following])) := by
  refine ⟨fun _ _ => rfl, fun q => ⟨rfl, ?_⟩⟩
  unfold DoStructuredSearchProfilesTypeaheadQuery TopQuery.filtersOf
  cases hf : q.following <;> simp [hf]

/-- C8: the executor maps failures as specified: a transport-level failure
yields the transport error wrapping the cause; a backend response whose
status is not 2xx (final HTTP statuses surfaced by the transport are
≥ 200, and the client's error test is status > 299) yields the backend
error carrying the original status code; a 2xx response whose body fails
to decode yields the decode error; a 2xx response that decodes yields the
decoded envelope with no error. -/
theorem c8_executor_failure_mapping :
    (∀ (env : Env) (index : String) (q : EsQueryDoc) (b cause : String),
      env.marshal q = .ok b →
      env.backend index b = .transportFailure cause →
      doSearch env index q = (none, some (.searchTransport cause))) ∧
    (∀ (env : Env) (index : String) (q : EsQueryDoc) (b : String)
        (status : Int) (body : String),
      env.marshal q = .ok b →
      env.backend index b = .httpResponse status body →
      200 ≤ status → ¬ (200 ≤ status ∧ status ≤ 299) →
      doSearch env index q = (none, some (.searchBackend status))) ∧
    (∀ (env : Env) (index : String) (q : EsQueryDoc) (b : String)
        (status : Int) (body msg : String),
      env.marshal q = .ok b →
      env.backend index b = .httpResponse status body →
      200 ≤ status → status ≤ 299 →
      env.decode body = .error msg →
      doSearch env index q = (none, some (.decodeResponse msg))) ∧
    (∀ (env : Env) (index : String) (q : EsQueryDoc) (b : String)
        (status : Int) (body : String) (out : EsSearchResponse),
      env.marshal q = .ok b →
      env.backend index b = .httpResponse status body →
      200 ≤ status → status ≤ 299 →
      env.decode body = .ok out →
      doSearch env index q = (some out, none)) := by
  refine ⟨?_, ?_, ?_, ?_⟩
  · intro env index q b cause hm hb
    simp [doSearch, hm, hb]
  · intro env index q b status body hm hb h200 h2xx
    have hie : respIsError status = true := by
      simp only [respIsError, decide_eq_true_eq]
      omega
    simp [doSearch, hm, hb, hie]
  · intro env index q b status body msg hm hb h200 h299 hd
    have hie : respIsError status = false := by
      simp only [respIsError, decide_eq_false_iff_not]
      omega
    simp [doSearch, hm, hb, hie, hd]
  · intro env index q b status body out hm hb h200 h299 hd
    have hie : respIsError status = false := by
      simp only [respIsError, decide_eq_false_iff_not]
      omega
    simp [doSearch, hm, hb, hie, hd]

/-- Witness for C8: each of the four outcomes realized in a concrete
environment on the passthrough document. -/
theorem c8_executor_failure_mapping_witness :
    doSearch envRefused "idx" (DoSearchGenericQuery "q") =
      (none, some (.searchTransport "connection refused")) ∧
    doSearch envRejects "idx" (DoSearchGenericQuery "q") =
      (none, some (.searchBackend 500)) ∧
    doSearch envBadBody "idx" (DoSearchGenericQuery "q") =
      (none, some (.decodeResponse "unexpected EOF")) ∧
    doSearch envOk "idx" (DoSearchGenericQuery "q") =
      (some respEmpty, none) :=
  ⟨c8_executor_failure_mapping.1 envRefused "idx" (DoSearchGenericQuery "q")
      "\x7b\x7d" "connection refused" rfl rfl,
   c8_executor_failure_mapping.2.1 envRejects "idx"
      (DoSearchGenericQuery "q") "\x7b\x7d" 500 "oops" rfl rfl (by norm_num)
      (by norm_num),
   c8_executor_failure_mapping.2.2.1 envBadBody "idx"
      (DoSearchGenericQuery "q") "\x7b\x7d" 200 "body" "unexpected EOF" rfl rfl
      (by norm_num) (by norm_num) rfl,
   c8_executor_failure_mapping.2.2.2 envOk "idx" (DoSearchGenericQuery "q")
      "\x7b\x7d" 200 "body" respEmpty rfl rfl (by norm_num) (by norm_num) rfl⟩

/-- C9: in the three structured shapes a facet set that is empty produces
no terms filter clause for that facet, and a terms filter over the set is
produced exactly when the set is non-empty (Go slices conflate absent and
empty: both have length zero and are modelled as `[]`). -/
theorem c9_empty_facet_no_clause :
    (∀ (env : Env) (q : PostSearchQuery),
      (DoStructuredSearchPostsQuery env q).query.filtersOf =
        (env.parseQuery q.query).2 ++
          Filter.range "created_at"
            { gte := q.from_, lte := some (q.to_.getD env.now) } ::
          ((if q.actors = [] then [] else [Filter.terms "did" q.actors]) ++
           (if q.tags = [] then [] else [Filter.terms "tag" q.tags]) ++
           (if q.langs = [] then [] else [Filter.terms "lang" q.langs]))) ∧
    (∀ (env : Env) (q : ActorSearchQuery),
      (DoStructuredSearchProfilesQuery env q).query.filtersOf =
        (env.parseQuery q.query).2 ++
          (if q.following = [] then []
           else [Filter.terms "did" q.following])) ∧
    (∀ q : ActorSearchQuery,
      (DoStructuredSearchProfilesTypeaheadQuery q).query.filtersOf =
        (if q.following = [] then []
         else [Filter.terms "did" q.following])) := by
  refine ⟨?_, ?_, ?_⟩
  · intro env q
    have h := structuredPosts_filters env q
    rw [h]
    cases q.actors <;> cases q.tags <;> cases q.langs <;> simp
  · intro env q
    unfold DoStructuredSearchProfilesQuery TopQuery.filtersOf
    cases hf : q.following <;> simp [hf]
  · intro q
    unfold DoStructuredSearchProfilesTypeaheadQuery TopQuery.filtersOf
    cases hf : q.following <;> simp [hf]

/-- A search call result contains exactly one of a response or an error. -/
def exclusiveResult (r : Option EsSearchResponse × Option SearchError) :
    Prop :=
  (∃ v, r = (some v, none)) ∨ (∃ e, r = (none, some e))

lemma doSearch_exclusive (env : Env) (index : String) (q : EsQueryDoc) :
    exclusiveResult (doSearch env index q) := by
  unfold exclusiveResult
  rcases hm : env.marshal q with msg | b
  · exact .inr ⟨.serializeQuery msg, by simp [doSearch, hm]⟩
  · rcases hb : env.backend index b with cause | ⟨status, body⟩
    · exact .inr ⟨.searchTransport cause, by simp [doSearch, hm, hb]⟩
    · cases hie : respIsError status with
      | true => exact .inr ⟨.searchBackend status, by
          simp [doSearch, hm, hb, hie]⟩
      | false =>
        rcases hd : env.decode body with msg | out
        · exact .inr ⟨.decodeResponse msg, by
            simp [doSearch, hm, hb, hie, hd]⟩
        · exact .inl ⟨out, by simp [doSearch, hm, hb, hie, hd]⟩

lemma guard_exclusive (env : Env) (index : String) (offset size : Int)
    (doc : EsQueryDoc) :
    exclusiveResult
      (match checkParams offset size with
       | some err => (none, some err)
       | none => doSearch env index doc) := by
  cases hc : checkParams offset size with
  | some err => exact .inr ⟨err, rfl⟩
  | none => exact doSearch_exclusive env index doc

/-- C10: every search operation returns exactly one of a response or an
error — on every failure path the response is `nil` and the error is
non-`nil`, and on success the response is non-`nil` and the error is
`nil`; never both, never neither. -/
theorem c10_result_error_exclusive :
    (∀ (env : Env) (index : String) (q : PostSearchQuery),
      exclusiveResult (DoStructuredSearchPosts env index q)) ∧
    (∀ (env : Env) (index q : String) (offset size : Int),
      exclusiveResult (DoSearchPosts env index q offset size)) ∧
    (∀ (env : Env) (index q : String) (offset size : Int),
      exclusiveResult (DoSearchProfiles env index q offset size)) ∧
    (∀ (env : Env) (index : String) (q : ActorSearchQuery),
      exclusiveResult (DoStructuredSearchProfiles env index q)) ∧
    (∀ (env : Env) (index q : String) (size : Int),
      exclusiveResult (DoSearchProfilesTypeahead env index q size)) ∧
    (∀ (env : Env) (index : String) (q : ActorSearchQuery),
      exclusiveResult (DoStructuredSearchProfilesTypeahead env index q)) ∧
    (∀ (env : Env) (index q : String),
      exclusiveResult (DoSearchGeneric env index q)) :=
  ⟨fun env index q => guard_exclusive env index q.offset q.size _,
   fun env index _ offset size => guard_exclusive env index offset size _,
   fun env index _ offset size => guard_exclusive env index offset size _,
   fun env index q => guard_exclusive env index q.offset q.size _,
   fun env index _ size => guard_exclusive env index 0 size _,
   fun env index q => guard_exclusive env index q.offset q.size _,
   fun env index q => doSearch_exclusive env index (DoSearchGenericQuery q)⟩

end Search
